import Mathlib

/-!
# Verification of the Infobae scraping / analysis scripts

A shallow embedding of `scrap.py`, `scrap_grafico.py` and
`scrap_grafico_1.py`, together with theorems settling the specification
claims about them.

External collaborators (the HTTP client, the HTML parser, the plotting
and NLP libraries) are modelled as parameters; the pandas CSV writer and
reader are modelled explicitly at the character level (default options:
comma separator, minimal quoting with doubled `"` escapes, `\n` line
terminator, empty / NA-sentinel fields loaded as missing values), since
the CSV file is the sole integration contract between the two pipelines.
-/

namespace Scrap

/-- One extracted news record (`news_data` entry in `scrap.py`):
title, subtitle and the extraction timestamp, all stored as text. -/
structure Record where
  titulo : String
  subtitulo : String
  fecha_extraccion : String
  deriving Repr, DecidableEq

/-- The non-empty trimmed titles, in page order. This is the list of
titles that pass the `if title.text.strip():` guard in
`scrape_infobae_america`, each already stripped. -/
def nonEmptyTitles (titles : List String) : List String :=
  (titles.map String.trim).filter (fun t => t ≠ "")

/-- The record list built by the first loop of `scrape_infobae_america`:
one record per non-empty trimmed title, subtitle initially empty, all
stamped with the current time. -/
def initialRecords (titles : List String) (now : String) : List Record :=
  (nonEmptyTitles titles).map (fun t => { titulo := t, subtitulo := "", fecha_extraccion := now })

/-- The second loop of `scrape_infobae_america`:
`for i, subtitle in enumerate(subtitles): if i < len(news_data):
news_data[i]["subtitulo"] = subtitle.text.strip()`.
Record `i` receives the trimmed text of subtitle `i`; iterations with
`i >= len(news_data)` change nothing and records past the subtitle list
keep their current subtitle, which the simultaneous recursion below
renders directly. -/
def asignarSubtitulos : List Record → List String → List Record
  | [], _ => []
  | news, [] => news
  | r :: news, s :: subs => { r with subtitulo := s.trim } :: asignarSubtitulos news subs

/-- The parse-and-associate core of `scrape_infobae_america`, applied to
the texts of the `h2.story-card-hl` elements and of the
`h3.story-card-deck` elements found in the page. -/
def scrapeRecords (titles subtitles : List String) (now : String) : List Record :=
  asignarSubtitulos (initialRecords titles now) subtitles

/-!
## CSV persistence (`save_data` / `pd.read_csv`)

`save_data` calls `df.to_csv(filename, index=False, encoding='utf-8')`,
i.e. pandas' CSV writer with the default options: comma separator,
`"` quote character, minimal quoting (a field is quoted exactly when it
contains a separator, a quote, or a line break; quotes are doubled),
`\n` line terminator, header row first, no index column.  The analyzers
reload the file with `pd.read_csv` under default options, under which an
empty field — and any of the default NA sentinel strings — is loaded as
a missing value (NaN), not as a string.
-/

/-- A character that forces minimal quoting of a CSV field. -/
def isSpecial (c : Char) : Bool := c = ',' || c = '"' || c = '\n' || c = '\r'

/-- Whether the pandas writer quotes the field under minimal quoting. -/
def needsQuote (cs : List Char) : Bool := cs.any isSpecial

/-- Double every quote character, as the CSV writer does inside a quoted
field. -/
def escQuotes : List Char → List Char
  | [] => []
  | c :: cs => if c = '"' then '"' :: '"' :: escQuotes cs else c :: escQuotes cs

/-- One field as written to the file: quoted (with doubled quotes) when
it contains a special character, verbatim otherwise. -/
def escField (cs : List Char) : List Char :=
  if needsQuote cs then '"' :: (escQuotes cs ++ ['"']) else cs

/-- Join already-escaped fields with the comma separator. -/
def sepJoin : List (List Char) → List Char
  | [] => []
  | [f] => f
  | f :: fs => f ++ ',' :: sepJoin fs

/-- One CSV line for a row of raw fields. -/
def rowChars (fields : List (List Char)) : List Char := sepJoin (fields.map escField)

/-- The whole file body: each row followed by the `\n` terminator. -/
def csvLines (rows : List (List (List Char))) : List Char :=
  (rows.map (fun r => rowChars r ++ ['\n'])).join

/-- Column order of the written CSV, fixed by the dict insertion order
in `scrape_infobae_america`. -/
def headerFields : List String := ["titulo", "subtitulo", "fecha_extraccion"]

/-- The raw string fields of a record, in column order. -/
def recordFields (r : Record) : List String := [r.titulo, r.subtitulo, r.fecha_extraccion]

/-- The text produced by `df.to_csv(..., index=False, encoding='utf-8')`
for a record table: header row then one line per record. -/
def to_csv (rows : List Record) : String :=
  ⟨csvLines ((headerFields :: rows.map recordFields).map (fun r => r.map String.data))⟩

/-- The CSV reader state machine (model of the pandas parser on
well-formed input): consumes one character at a time, tracking whether
it is inside a quoted field, the current field, the current row and the
finished rows.  Returns `none` on an unterminated quote. -/
def runCsv : List Char → Bool → List Char → List (List Char) → List (List (List Char)) →
    Option (List (List (List Char)))
  | [], q, field, row, rows =>
    if q then none
    else if field = [] ∧ row = [] then some rows
    else some (rows ++ [row ++ [field]])
  | c :: rest, q, field, row, rows =>
    if q then
      if c = '"' then
        match rest with
        | [] => runCsv [] false field row rows
        | c2 :: rest2 =>
          if c2 = '"' then runCsv rest2 true (field ++ ['"']) row rows
          else runCsv (c2 :: rest2) false field row rows
      else runCsv rest true (field ++ [c]) row rows
    else
      if c = '"' ∧ field = [] then runCsv rest true field row rows
      else if c = ',' then runCsv rest false [] (row ++ [field]) rows
      else if c = '\n' then runCsv rest false [] [] (rows ++ [row ++ [field]])
      else runCsv rest false (field ++ [c]) row rows

/-- The default NA sentinel strings of `pd.read_csv`: a field whose raw
text is one of these is loaded as a missing value. -/
def default_na_values : List String :=
  ["", "#N/A", "#N/A N/A", "#NA", "-1.#IND", "-1.#QNAN", "-NaN", "-nan",
   "1.#IND", "1.#QNAN", "<NA>", "N/A", "NA", "NULL", "NaN", "None", "n/a", "nan", "null"]

/-- A loaded cell: either a string value or a missing value (NaN). -/
inductive Cell where
  | str (s : String)
  | na
  deriving Repr, DecidableEq

/-- NA conversion applied by `pd.read_csv` to every data cell. -/
def naOf (s : String) : Cell := if s ∈ default_na_values then Cell.na else Cell.str s

/-- Model of `pd.read_csv` under default options on the files this
program writes: parse the CSV text, take the first row as the header,
and apply NA conversion to every data cell.  (Dtype inference is out of
scope: cells are kept as text, as they are for the columns this program
produces.) -/
def read_csv (content : String) : Option (List String × List (List Cell)) :=
  match runCsv content.data false [] [] [] with
  | none => none
  | some [] => none
  | some (h :: rs) =>
    some (h.map String.mk, rs.map (fun r => r.map (fun cs => naOf (String.mk cs))))

/-- A field terminator in the written file: the separator or the line
terminator. -/
def isDelim (c : Char) : Bool := c = ',' || c = '\n'

/-!
## `save_data` (`scrap.py`)
-/

/-- What `save_data` did: either one whole-file write (target name, text
content, encoding) or the console report for an empty / absent table. -/
inductive SaveResult where
  | wrote (filename content encoding : String)
  | nothingToSave (msg : String)
  deriving Repr, DecidableEq

/-- `save_data(df, filename="infobae_noticias.csv")`: writes the CSV
only when the table is present (`df is not None`) and non-empty
(`not df.empty`); otherwise performs no write and prints
"No hay datos para guardar". -/
def save_data (df : Option (List Record))
    (filename : String := "infobae_noticias.csv") : SaveResult :=
  match df with
  | none => SaveResult.nothingToSave "No hay datos para guardar"
  | some rows =>
    if rows.isEmpty then SaveResult.nothingToSave "No hay datos para guardar"
    else SaveResult.wrote filename (to_csv rows) "utf-8"

/-!
## The full extractor (`scrape_infobae_america`)

The HTTP GET and the BeautifulSoup parse are external collaborators:
the fetch either yields a response or raises, and the parse either
yields the texts of the `h2.story-card-hl` and `h3.story-card-deck`
elements or raises.  Everything is inside the function's `try`; the
`except` prints the message and returns `None`, and a non-200 status
prints the code and returns `None` before parsing.
-/

/-- The `requests` response: status code and body text. -/
structure HttpResponse where
  status_code : Nat
  text : String
  deriving Repr, DecidableEq

/-- Outcome of the `requests.get` call: a response, or an exception. -/
inductive FetchResult where
  | success (r : HttpResponse)
  | exn (msg : String)
  deriving Repr, DecidableEq

/-- `scrape_infobae_america`, returning the optional record table and
the list of console messages it printed. -/
def scrape_infobae_america (fetch : FetchResult)
    (parse : String → Except String (List String × List String)) (now : String) :
    Option (List Record) × List String :=
  match fetch with
  | FetchResult.exn e => (none, ["Error durante el scraping: " ++ e])
  | FetchResult.success resp =>
    if resp.status_code ≠ 200 then
      (none, ["Error al acceder a la página: Código " ++ toString resp.status_code])
    else
      match parse resp.text with
      | Except.error e => (none, ["Error durante el scraping: " ++ e])
      | Except.ok (titles, subtitles) => (some (scrapeRecords titles subtitles now), [])

/-!
## Analyzer load and preprocessing

The base analyzer's module-level load block and the extended analyzer's
`cargar_datos` are the same contract: `pd.read_csv('infobae_noticias.csv')`
followed by the `titulo_limpio` derivation and the optional
`fecha_extraccion` conversion, all inside a `try` whose `except` prints
the error and calls `exit()`.  Any failure — missing file, malformed
CSV, missing `titulo` column, or a NaN title (on which `x.lower()`
raises) — is fatal to the whole batch.
-/

/-- `re.sub(r'[^\w\s]', '', x.lower())`: lower-case and keep only word
characters and whitespace. -/
def limpiar (s : String) : String :=
  String.mk ((s.data.map Char.toLower).filter (fun c => c.isAlphanum || c = '_' || c.isWhitespace))

/-- The loaded table: the raw title column (all strings once the load
succeeded), the derived `titulo_limpio` column, the subtitle column if
present, and the `fecha_extraccion` column if present. -/
structure Table where
  titulos : List String
  titulo_limpio : List String
  subtitulos : Option (List Cell)
  fechas : Option (List Cell)
  deriving Repr, DecidableEq

/-- Column lookup in the loaded CSV: `none` when the header lacks the
column; short rows are padded with missing values. -/
def getCol (hdr : List String) (cells : List (List Cell)) (name : String) :
    Option (List Cell) :=
  match hdr.findIdx? (fun h => h == name) with
  | none => none
  | some i => some (cells.map (fun row => (row.get? i).getD Cell.na))

/-- Reading a cell as a string, as `x.lower()` requires: a missing value
raises (a float has no `lower`). -/
def cellStr : Cell → Except String String
  | Cell.str s => Except.ok s
  | Cell.na => Except.error "float object has no attribute lower"

/-- The load block / `cargar_datos`: `none` input models a missing CSV
file, otherwise the file content is parsed and preprocessed; every
failure is an `Except.error`, which the caller turns into a batch
abort. -/
def cargar_datos (file : Option String) : Except String Table :=
  match file with
  | none => Except.error "No such file or directory: infobae_noticias.csv"
  | some content =>
    match read_csv content with
    | none => Except.error "Error tokenizing data"
    | some (hdr, cells) =>
      match getCol hdr cells "titulo" with
      | none => Except.error "KeyError: titulo"
      | some tituloCells =>
        match tituloCells.mapM cellStr with
        | Except.error e => Except.error e
        | Except.ok titulos =>
          Except.ok { titulos := titulos
                    , titulo_limpio := titulos.map limpiar
                    , subtitulos := getCol hdr cells "subtitulo"
                    , fechas := getCol hdr cells "fecha_extraccion" }

/-!
## Token frequencies (`top_palabras`, both variants)
-/

/-- `\w` word characters (ASCII approximation of the regex class; the
corpus is lower-cased with punctuation already stripped, and the exact
class does not affect the stated properties). -/
def isWordChar (c : Char) : Bool := c.isAlphanum || c = '_'

/-- `re.findall(r'\b\w+\b', ...)`: the maximal runs of word characters,
accumulated left to right. -/
def tokenizeAux : List Char → List Char → List (List Char)
  | [], cur => if cur = [] then [] else [cur]
  | c :: cs, cur =>
    if isWordChar c then tokenizeAux cs (cur ++ [c])
    else if cur = [] then tokenizeAux cs [] else cur :: tokenizeAux cs []

/-- Tokenize a corpus string on word boundaries. -/
def tokenize (s : String) : List String := (tokenizeAux s.data []).map String.mk

/-- The fixed stopword set of the base `top_palabras`. -/
def stopwords_base : List String :=
  ["de", "la", "el", "en", "y", "a", "los", "las", "del", "que", "con"]

/-- The fixed stopword set of the extended `top_palabras`. -/
def stopwords_ext : List String :=
  ["de", "la", "el", "en", "y", "a", "los", "las", "del", "que", "con", "por", "para"]

/-- The list comprehension filter: keep a token iff it is not a stopword
and its length exceeds 3. -/
def filtrar (tokens : List String) (stop : List String) : List String :=
  tokens.filter (fun w => (!stop.contains w) && decide (3 < w.length))

/-- The distinct keys of `Counter(words)` in first-insertion order. -/
def firstKeys (ws : List String) : List String :=
  ws.foldl (fun acc w => if w ∈ acc then acc else acc ++ [w]) []

/-- `Counter(words)` as an association list: each distinct word with its
total count, in first-insertion order. -/
def counterItems (ws : List String) : List (String × Nat) :=
  (firstKeys ws).map (fun w => (w, ws.count w))

/-- The `most_common` comparison: descending by count (ties keep
insertion order under the stable sort). -/
def byCountDesc (p q : String × Nat) : Prop := q.2 ≤ p.2

instance : DecidableRel byCountDesc := fun p q => Nat.decLe q.2 p.2

instance : IsTotal (String × Nat) byCountDesc := ⟨fun p q => Nat.le_total q.2 p.2⟩

instance : IsTrans (String × Nat) byCountDesc :=
  ⟨fun _ _ _ hab hbc => le_trans hbc hab⟩

/-- `Counter(words).most_common(n)`: the items sorted by count
descending (stable), truncated to `n`. -/
def most_common (ws : List String) (n : Nat) : List (String × Nat) :=
  (List.insertionSort byCountDesc (counterItems ws)).take n

/-- Base analyzer `top_palabras(df, n=15)` (`scrap_grafico.py`): the
tokens come from the module-level corpus string `text`, not from the
`df` argument, which the body never reads. -/
def top_palabras (text : String) (df : Table) (n : Nat := 15) : List (String × Nat) :=
  most_common (filtrar (tokenize text) stopwords_base) n

/-- Extended analyzer `top_palabras(df, n=15)` (`scrap_grafico_1.py`):
tokens from `' '.join(df['titulo_limpio'])`. -/
def top_palabras_ext (df : Table) (n : Nat := 15) : List (String × Nat) :=
  most_common (filtrar (tokenize (String.intercalate " " df.titulo_limpio)) stopwords_ext) n

/-!
## Length histogram (`grafico_longitud_titulos` / `analizar_longitud_titulos`)
-/

/-- The data a length histogram draws: the lengths, the reference line
position (`plt.axvline(mean_len, ...)`) and its legend label. -/
structure LengthChart where
  data : List ℚ
  refLine : ℚ
  refLabel : String

/-- Python `f'{x:.1f}'` on a non-negative value: one decimal digit,
round half to even. -/
def fmt1 (q : ℚ) : String :=
  let s : ℚ := q * 10
  let fl : ℤ := Int.floor s
  let fr : ℚ := s - fl
  let n : ℤ :=
    if fr > 1/2 then fl + 1
    else if fr < 1/2 then fl
    else if fl % 2 = 0 then fl else fl + 1
  toString (n / 10) ++ "." ++ toString (n % 10)

/-- Base `grafico_longitud_titulos(df)`: histogram of
`df['titulo'].apply(len)` with the mean as a labelled reference line. -/
def grafico_longitud_titulos (df : Table) : LengthChart :=
  let longitudes := df.titulos.map (fun t => (t.length : ℚ))
  let mean_len := longitudes.sum / (longitudes.length : ℚ)
  { data := longitudes, refLine := mean_len
  , refLabel := "Media: " ++ fmt1 mean_len ++ " chars" }

/-- Extended `analizar_longitud_titulos(df)`: same computation, label in
Spanish. -/
def analizar_longitud_titulos (df : Table) : LengthChart :=
  let longitudes := df.titulos.map (fun t => (t.length : ℚ))
  let mean_len := longitudes.sum / (longitudes.length : ℚ)
  { data := longitudes, refLine := mean_len
  , refLabel := "Media: " ++ fmt1 mean_len ++ " caracteres" }

/-!
## The base analysis batch (`scrap_grafico.py`)
-/

/-- Outcome of one visualization: an artifact path, a locally caught and
logged failure, or (temporal chart only) a skip with a warning. -/
inductive VizOutcome where
  | artifact (filename : String)
  | errorLogged (msg : String)
  | skipped (msg : String)
  deriving Repr, DecidableEq

/-- The per-function `try`/`except` boundary: the body either produces
an artifact path or raises, and the failure is caught and logged
locally — never re-raised. -/
def runViz (body : Table → Except String String) (df : Table) : VizOutcome :=
  match body df with
  | Except.ok a => VizOutcome.artifact a
  | Except.error e => VizOutcome.errorLogged e

/-- `analisis_temporal(df)`: before its `try`, it returns with a warning
when the `fecha_extraccion` column is absent; otherwise it runs its body
under the usual catch-all. -/
def analisis_temporal (body : Table → Except String String) (df : Table) : VizOutcome :=
  if df.fechas.isNone then VizOutcome.skipped "No hay datos temporales para analizar"
  else runViz body df

/-- Result of the whole analysis batch: aborted at the load (`exit()`),
or completed with one outcome per visualization. -/
inductive BatchResult where
  | aborted (msg : String)
  | completed (outcomes : List VizOutcome)
  deriving Repr, DecidableEq

/-- The base analyzer batch: the load result either aborts the run with
the printed message, or all four visualizations execute in sequence. -/
def analyzerBatch (load : Except String Table)
    (wordcloudBody longitudBody topBody temporalBody : Table → Except String String) :
    BatchResult :=
  match load with
  | Except.error e => BatchResult.aborted ("Error al cargar datos: " ++ e)
  | Except.ok df =>
    BatchResult.completed
      [runViz wordcloudBody df, runViz longitudBody df,
       runViz topBody df, analisis_temporal temporalBody df]

/-!
## Named entities (`extraer_entidades`, extended analyzer)
-/

/-- spaCy entity labels relevant to the buckets. -/
inductive EntLabel where
  | PER
  | LOC
  | other
  deriving Repr, DecidableEq

/-- One recognized entity: label and surface text. -/
structure Entity where
  label : EntLabel
  text : String
  deriving Repr, DecidableEq

/-- `extraer_entidades(df)`: the spaCy pipeline is an external
collaborator.  `none` for the model models the failed `spacy.load` at
startup (the `nlp` name is then undefined and the body's first use of it
raises `NameError`, caught by the function's `except`, which returns
`None, None`); any other exception from the pipeline likewise yields
`(None, None)`.  On success, each bucket yields its top-10 chart, or
`None` when the bucket is empty. -/
def extraer_entidades
    (nlpModel : Option (List String → Except String (List Entity)))
    (titulos : List String) :
    Option (List (String × Nat)) × Option (List (String × Nat)) :=
  match nlpModel with
  | none => (none, none)
  | some nlp =>
    match nlp titulos with
    | Except.error _ => (none, none)
    | Except.ok ents =>
      let personas := (ents.filter (fun en => en.label == EntLabel.PER)).map Entity.text
      let lugares := (ents.filter (fun en => en.label == EntLabel.LOC)).map Entity.text
      (if personas.isEmpty then none else some (most_common personas 10),
       if lugares.isEmpty then none else some (most_common lugares 10))

/-!
## Helper lemmas
-/

theorem asignarSubtitulos_length (news : List Record) (subs : List String) :
    (asignarSubtitulos news subs).length = news.length := by
  induction news generalizing subs with
  | nil => cases subs <;> simp [asignarSubtitulos]
  | cons r news ih =>
    cases subs with
    | nil => simp [asignarSubtitulos]
    | cons s ss => simp [asignarSubtitulos, ih]

theorem asignarSubtitulos_get? (news : List Record) (subs : List String) (i : Nat) :
    (asignarSubtitulos news subs).get? i =
      match news.get? i, subs.get? i with
      | some r, some s => some { r with subtitulo := s.trim }
      | some r, none => some r
      | none, _ => none := by
  induction news generalizing subs i with
  | nil => cases subs <;> cases i <;> simp [asignarSubtitulos]
  | cons r news ih =>
    cases subs with
    | nil =>
      cases i with
      | zero => simp [asignarSubtitulos]
      | succ n => simp only [asignarSubtitulos, List.get?_cons_succ]; cases news.get? n <;> rfl
    | cons s ss =>
      cases i with
      | zero => simp [asignarSubtitulos]
      | succ n => simpa [asignarSubtitulos] using ih ss n

theorem scrapeRecords_length (titles subtitles : List String) (now : String) :
    (scrapeRecords titles subtitles now).length = (nonEmptyTitles titles).length := by
  simp [scrapeRecords, asignarSubtitulos_length, initialRecords]

theorem scrapeRecords_titulo (titles subtitles : List String) (now : String) (i : Nat) :
    ((scrapeRecords titles subtitles now).get? i).map Record.titulo =
      (nonEmptyTitles titles).get? i := by
  rw [scrapeRecords, asignarSubtitulos_get?]
  have hb : (initialRecords titles now).get? i
      = ((nonEmptyTitles titles).get? i).map
          (fun t => ({ titulo := t, subtitulo := "", fecha_extraccion := now } : Record)) := by
    simp [initialRecords, List.get?_map]
  rw [hb]
  cases (nonEmptyTitles titles).get? i <;> cases subtitles.get? i <;> simp

theorem scrapeRecords_subtitulo (titles subtitles : List String) (now : String) (i : Nat) :
    ((scrapeRecords titles subtitles now).get? i).map Record.subtitulo =
      if i < (nonEmptyTitles titles).length then
        some (((subtitles.get? i).map String.trim).getD "")
      else none := by
  rw [scrapeRecords, asignarSubtitulos_get?]
  have hb : (initialRecords titles now).get? i
      = ((nonEmptyTitles titles).get? i).map
          (fun t => ({ titulo := t, subtitulo := "", fecha_extraccion := now } : Record)) := by
    simp [initialRecords, List.get?_map]
  rw [hb]
  by_cases h : i < (nonEmptyTitles titles).length
  · have ht := List.get?_eq_get (l := nonEmptyTitles titles) h
    rw [ht]
    cases subtitles.get? i <;> simp [h]
  · have hn : (nonEmptyTitles titles).get? i = none :=
      List.get?_eq_none.mpr (Nat.le_of_not_lt h)
    rw [hn]
    cases subtitles.get? i <;> simp [h]

theorem mk_data (s : String) : String.mk s.data = s := by cases s; rfl

theorem isDelim_ne_quote {d : Char} (hd : isDelim d = true) : ¬ d = '"' := by
  simp only [isDelim, Bool.or_eq_true, decide_eq_true_eq] at hd
  rcases hd with rfl | rfl <;> decide

theorem runCsv_step_lit {c : Char} (hq : ¬ c = '"') (hc : ¬ c = ',') (hn : ¬ c = '\n')
    (rest field : List Char) (row : List (List Char)) (rows : List (List (List Char))) :
    runCsv (c :: rest) false field row rows = runCsv rest false (field ++ [c]) row rows := by
  cases rest <;> simp [runCsv, hq, hc, hn]

theorem runCsv_step_comma (rest field : List Char) (row : List (List Char))
    (rows : List (List (List Char))) :
    runCsv (',' :: rest) false field row rows = runCsv rest false [] (row ++ [field]) rows := by
  cases rest <;> simp [runCsv]

theorem runCsv_step_newline (rest field : List Char) (row : List (List Char))
    (rows : List (List (List Char))) :
    runCsv ('\n' :: rest) false field row rows
      = runCsv rest false [] [] (rows ++ [row ++ [field]]) := by
  cases rest <;> simp [runCsv]

theorem runCsv_step_open (rest : List Char) (row : List (List Char))
    (rows : List (List (List Char))) :
    runCsv ('"' :: rest) false [] row rows = runCsv rest true [] row rows := by
  cases rest <;> simp [runCsv]

theorem runCsv_step_qlit {c : Char} (hq : ¬ c = '"') (rest field : List Char)
    (row : List (List Char)) (rows : List (List (List Char))) :
    runCsv (c :: rest) true field row rows = runCsv rest true (field ++ [c]) row rows := by
  cases rest <;> simp [runCsv, hq]

theorem runCsv_step_qq (rest field : List Char) (row : List (List Char))
    (rows : List (List (List Char))) :
    runCsv ('"' :: '"' :: rest) true field row rows
      = runCsv rest true (field ++ ['"']) row rows := by
  simp [runCsv]

theorem runCsv_step_qclose {d : Char} (hd : ¬ d = '"') (rest field : List Char)
    (row : List (List Char)) (rows : List (List (List Char))) :
    runCsv ('"' :: d :: rest) true field row rows = runCsv (d :: rest) false field row rows := by
  simp [runCsv, hd]

theorem runCsv_unquoted (f : List Char) (hf : needsQuote f = false)
    (d : Char) (rest field : List Char)
    (row : List (List Char)) (rows : List (List (List Char))) :
    runCsv (f ++ d :: rest) false field row rows =
      runCsv (d :: rest) false (field ++ f) row rows := by
  induction f generalizing field with
  | nil => simp
  | cons c f ih =>
    have h2 : (isSpecial c || needsQuote f) = false := hf
    have hcs : isSpecial c = false := (Bool.or_eq_false_iff.mp h2).1
    have hff : needsQuote f = false := (Bool.or_eq_false_iff.mp h2).2
    have hc1 : ¬ c = ',' := fun h => by subst h; simp [isSpecial] at hcs
    have hc2 : ¬ c = '"' := fun h => by subst h; simp [isSpecial] at hcs
    have hc3 : ¬ c = '\n' := fun h => by subst h; simp [isSpecial] at hcs
    rw [List.cons_append, runCsv_step_lit hc2 hc1 hc3, ih hff (field ++ [c])]
    simp

theorem runCsv_quoted (f : List Char) (d : Char) (hd : ¬ d = '"')
    (rest field : List Char) (row : List (List Char)) (rows : List (List (List Char))) :
    runCsv (escQuotes f ++ '"' :: d :: rest) true field row rows =
      runCsv (d :: rest) false (field ++ f) row rows := by
  induction f generalizing field with
  | nil =>
    rw [show escQuotes [] = [] from rfl, List.nil_append, runCsv_step_qclose hd]
    simp
  | cons c f ih =>
    by_cases hc : c = '"'
    · subst hc
      rw [show escQuotes ('"' :: f) = '"' :: '"' :: escQuotes f from by simp [escQuotes]]
      rw [List.cons_append, List.cons_append, runCsv_step_qq, ih (field ++ ['"'])]
      simp
    · rw [show escQuotes (c :: f) = c :: escQuotes f from by simp [escQuotes, hc]]
      rw [List.cons_append, runCsv_step_qlit hc, ih (field ++ [c])]
      simp

theorem runCsv_escField (f : List Char) (d : Char) (hd : isDelim d = true)
    (rest : List Char) (row : List (List Char)) (rows : List (List (List Char))) :
    runCsv (escField f ++ d :: rest) false [] row rows =
      runCsv (d :: rest) false f row rows := by
  by_cases hq : needsQuote f = true
  · rw [escField, if_pos hq]
    have hsh : ('"' :: (escQuotes f ++ ['"'])) ++ d :: rest
        = '"' :: (escQuotes f ++ '"' :: d :: rest) := by simp
    rw [hsh, runCsv_step_open, runCsv_quoted f d (isDelim_ne_quote hd) rest [] row rows]
    simp
  · rw [escField, if_neg hq]
    rw [runCsv_unquoted f (Bool.eq_false_iff.mpr hq) d rest [] row rows]
    simp

theorem runCsv_row (fs : List (List Char)) (f : List Char) (rest : List Char)
    (row : List (List Char)) (rows : List (List (List Char))) :
    runCsv (rowChars (f :: fs) ++ '\n' :: rest) false [] row rows =
      runCsv rest false [] [] (rows ++ [row ++ f :: fs]) := by
  induction fs generalizing f row with
  | nil =>
    rw [show rowChars [f] = escField f from rfl]
    rw [runCsv_escField f '\n' (by decide) rest row rows, runCsv_step_newline]
  | cons g fs ih =>
    have hrow : rowChars (f :: g :: fs) = escField f ++ ',' :: rowChars (g :: fs) := by
      simp [rowChars, sepJoin]
    rw [hrow]
    have hsh : (escField f ++ ',' :: rowChars (g :: fs)) ++ '\n' :: rest
        = escField f ++ ',' :: (rowChars (g :: fs) ++ '\n' :: rest) := by simp
    rw [hsh]
    rw [runCsv_escField f ',' (by decide) _ row rows, runCsv_step_comma]
    rw [ih g (row ++ [f])]
    simp

theorem runCsv_lines (rows : List (List (List Char))) (h : ∀ r ∈ rows, r ≠ [])
    (acc : List (List (List Char))) :
    runCsv (csvLines rows) false [] [] acc = some (acc ++ rows) := by
  induction rows generalizing acc with
  | nil => simp [csvLines, runCsv]
  | cons r rs ih =>
    obtain ⟨f, fs, rfl⟩ := List.exists_cons_of_ne_nil (h r (by simp))
    have hl : csvLines ((f :: fs) :: rs) = rowChars (f :: fs) ++ '\n' :: csvLines rs := by
      simp [csvLines]
    rw [hl, runCsv_row fs f (csvLines rs) [] acc]
    rw [ih (fun r hr => h r (by simp [hr])) (acc ++ [[] ++ f :: fs])]
    simp

/-- Write-then-read at the table level: reloading the written CSV gives
back the header and, for every record, the three fields in order, each
passed through the reader's NA conversion. -/
theorem read_csv_to_csv (recs : List Record) :
    read_csv (to_csv recs) = some (headerFields,
      recs.map (fun r => (recordFields r).map naOf)) := by
  have hne : ∀ r ∈ (headerFields :: recs.map recordFields).map (fun r => r.map String.data),
      r ≠ [] := by
    intro r hr
    simp only [List.mem_map, List.mem_cons] at hr
    obtain ⟨x, hx, rfl⟩ := hr
    rcases hx with rfl | hx
    · simp [headerFields]
    · obtain ⟨rec, _, rfl⟩ := hx
      simp [recordFields]
  rw [to_csv, read_csv]
  rw [show (String.mk (csvLines ((headerFields :: recs.map recordFields).map
      (fun r => r.map String.data)))).data
    = csvLines ((headerFields :: recs.map recordFields).map (fun r => r.map String.data))
    from rfl]
  rw [runCsv_lines _ hne []]
  simp [List.map_map, Function.comp_def, mk_data, recordFields]

theorem firstKeys_fold_sub (ws : List String) :
    ∀ acc x, x ∈ ws.foldl (fun a w => if w ∈ a then a else a ++ [w]) acc →
      x ∈ acc ∨ x ∈ ws := by
  induction ws with
  | nil => intro acc x hx; exact Or.inl hx
  | cons w ws ih =>
    intro acc x hx
    simp only [List.foldl_cons] at hx
    rcases ih _ x hx with h | h
    · by_cases hw : w ∈ acc
      · rw [if_pos hw] at h; exact Or.inl h
      · rw [if_neg hw] at h
        rcases List.mem_append.mp h with h | h
        · exact Or.inl h
        · simp only [List.mem_singleton] at h
          subst h; exact Or.inr (List.mem_cons_self _ _)
    · exact Or.inr (List.mem_cons_of_mem _ h)

theorem mem_most_common {ws : List String} {n : Nat} {p : String × Nat}
    (hp : p ∈ most_common ws n) : p.1 ∈ ws := by
  have h1 : p ∈ List.insertionSort byCountDesc (counterItems ws) :=
    List.take_subset n _ hp
  have h2 : p ∈ counterItems ws := (List.perm_insertionSort byCountDesc _).subset h1
  obtain ⟨w, hw, rfl⟩ := List.mem_map.mp h2
  rcases firstKeys_fold_sub ws [] w hw with h | h
  · cases h
  · exact h

theorem sorted_most_common (ws : List String) (n : Nat) :
    List.Sorted byCountDesc (most_common ws n) :=
  List.Pairwise.sublist (List.take_sublist n _)
    (List.sorted_insertionSort byCountDesc (counterItems ws))

theorem length_most_common (ws : List String) (n : Nat) :
    (most_common ws n).length ≤ n := by
  rw [most_common, List.length_take]
  exact Nat.min_le_left _ _

theorem all_filtrar_most_common (tokens stop : List String) (n : Nat) :
    (most_common (filtrar tokens stop) n).all
      (fun p => (!stop.contains p.1) && decide (3 < p.1.length)) = true := by
  rw [List.all_eq_true]
  intro p hp
  exact (List.mem_filter.mp (mem_most_common hp)).2

/-!
## Claim theorems
-/

/-- C1: for a parse yielding `T` non-empty trimmed title elements and
`S` subtitle elements, the extractor returns exactly `T` rows in title
order, and row `i`'s subtitle is the trimmed text of subtitle `i` when
`i < S` and the empty string otherwise; excess subtitles with index
`>= T` are dropped. -/
theorem extractor_positional_pairing (titles subtitles : List String) (now : String) (i : Nat) :
    (scrapeRecords titles subtitles now).length = (nonEmptyTitles titles).length ∧
    ((scrapeRecords titles subtitles now).get? i).map Record.titulo
      = (nonEmptyTitles titles).get? i ∧
    ((scrapeRecords titles subtitles now).get? i).map Record.subtitulo
      = (if i < (nonEmptyTitles titles).length then
          some (((subtitles.get? i).map String.trim).getD "")
        else none) :=
  ⟨scrapeRecords_length titles subtitles now,
   scrapeRecords_titulo titles subtitles now i,
   scrapeRecords_subtitulo titles subtitles now i⟩

/-- C2 is false as stated: for the one-record table whose subtitle is
the empty string, `save_data`'s CSV is reloaded by `read_csv` with a
missing value (NaN) in the subtitle cell, which is not the empty
string. -/
theorem csv_roundtrip_counterexample :
    read_csv (to_csv
        [{ titulo := "Titulo A", subtitulo := "", fecha_extraccion := "2025-03-01 10:00:00" }])
      = some (headerFields,
          [[Cell.str "Titulo A", Cell.na, Cell.str "2025-03-01 10:00:00"]]) ∧
    Cell.na ≠ Cell.str "" := by
  constructor
  · decide
  · decide

/-- C2 (amended): writing any record table with `save_data` and loading
it back with `read_csv` reproduces the title, subtitle and timestamp
values of every row modulo the reader's NA conversion: a field whose
text is not one of the reader's NA sentinels comes back as the same
string, while the empty string (and the other NA sentinels) comes back
as a missing value rather than a string — so rows with an empty
subtitle do not round-trip to the empty string. -/
theorem csv_roundtrip_modulo_na (recs : List Record) (s : String) :
    read_csv (to_csv recs)
      = some (headerFields, recs.map (fun r => (recordFields r).map naOf)) ∧
    (naOf s = Cell.str s ↔ ¬ s ∈ default_na_values) ∧
    naOf "" = Cell.na := by
  refine ⟨read_csv_to_csv recs, ?_, rfl⟩
  by_cases h : s ∈ default_na_values <;> simp [naOf, h]

/-- C3: both `top_palabras` variants exclude every stopword of their
fixed list and every token of length `≤ 3` regardless of frequency,
and render at most `n` (default 15) remaining tokens in descending
frequency order. -/
theorem top_palabras_exclusions (text : String) (df df2 : Table) (n : Nat) :
    (top_palabras text df n).all
        (fun p => (!stopwords_base.contains p.1) && decide (3 < p.1.length)) = true ∧
    List.Sorted byCountDesc (top_palabras text df n) ∧
    (top_palabras text df n).length ≤ n ∧
    (top_palabras_ext df2 n).all
        (fun p => (!stopwords_ext.contains p.1) && decide (3 < p.1.length)) = true ∧
    List.Sorted byCountDesc (top_palabras_ext df2 n) ∧
    (top_palabras_ext df2 n).length ≤ n :=
  ⟨all_filtrar_most_common _ _ n, sorted_most_common _ n, length_most_common _ n,
   all_filtrar_most_common _ _ n, sorted_most_common _ n, length_most_common _ n⟩

/-- C4: the initial CSV load is the single fatal path of the base
analyzer batch: a load failure aborts the batch with the reported
message and no visualization outcome, while a successful load always
yields a completed batch of the four visualization outcomes, each
visualization catching its own failure locally; and a missing CSV file
is such a load failure. -/
theorem analyzer_single_fatal_path (e m : String) (df : Table)
    (b1 b2 b3 b4 : Table → Except String String) :
    analyzerBatch (Except.error e) b1 b2 b3 b4
      = BatchResult.aborted ("Error al cargar datos: " ++ e) ∧
    analyzerBatch (Except.ok df) b1 b2 b3 b4
      = BatchResult.completed
          [runViz b1 df, runViz b2 df, runViz b3 df, analisis_temporal b4 df] ∧
    runViz (fun _ => Except.error m) df = VizOutcome.errorLogged m ∧
    cargar_datos none = Except.error "No such file or directory: infobae_noticias.csv" :=
  ⟨rfl, rfl, rfl, rfl⟩

/-- C5: `save_data` writes a non-empty table as a UTF-8 CSV whose
reload exhibits the header `titulo,subtitulo,fecha_extraccion` in fixed
order and one three-cell row per record with no index column; for an
empty or absent table it performs no write and reports
"No hay datos para guardar". -/
theorem save_data_contract (r0 : Record) (rtl : List Record) (f : String) :
    save_data (some (r0 :: rtl)) f
      = SaveResult.wrote f (to_csv (r0 :: rtl)) "utf-8" ∧
    read_csv (to_csv (r0 :: rtl))
      = some (["titulo", "subtitulo", "fecha_extraccion"],
          (r0 :: rtl).map (fun r => [naOf r.titulo, naOf r.subtitulo, naOf r.fecha_extraccion])) ∧
    save_data (some []) f = SaveResult.nothingToSave "No hay datos para guardar" ∧
    save_data none f = SaveResult.nothingToSave "No hay datos para guardar" := by
  refine ⟨rfl, ?_, rfl, rfl⟩
  have h := read_csv_to_csv (r0 :: rtl)
  simpa [recordFields, headerFields] using h

/-- C6: the extractor never raises to its caller: a non-200 response
yields `None` with the status code printed, and any exception during
fetch or parse yields `None` with the failure message printed. -/
theorem scraper_never_raises (resp : HttpResponse) (h : resp.status_code ≠ 200)
    (e msg now body : String) (p : String → Except String (List String × List String)) :
    scrape_infobae_america (FetchResult.success resp) p now
      = (none, ["Error al acceder a la página: Código " ++ toString resp.status_code]) ∧
    scrape_infobae_america (FetchResult.exn e) p now
      = (none, ["Error durante el scraping: " ++ e]) ∧
    scrape_infobae_america (FetchResult.success ⟨200, body⟩) (fun _ => Except.error msg) now
      = (none, ["Error durante el scraping: " ++ msg]) := by
  refine ⟨?_, rfl, rfl⟩
  simp [scrape_infobae_america, h]

/-- Witness for C6 at a concrete 404 response, exception and parse
failure. -/
theorem scraper_never_raises_witness :
    (404 : Nat) ≠ 200 ∧
    (scrape_infobae_america (FetchResult.success ⟨404, "x"⟩)
        (fun _ => Except.ok ([], [])) "t"
      = (none, ["Error al acceder a la página: Código " ++ toString (404 : Nat)]) ∧
    scrape_infobae_america (FetchResult.exn "boom") (fun _ => Except.ok ([], [])) "t"
      = (none, ["Error durante el scraping: " ++ "boom"]) ∧
    scrape_infobae_america (FetchResult.success ⟨200, "x"⟩) (fun _ => Except.error "bad html") "t"
      = (none, ["Error durante el scraping: " ++ "bad html"])) :=
  ⟨by decide,
   scraper_never_raises ⟨404, "x"⟩ (by decide) "boom" "bad html" "t" "x"
     (fun _ => Except.ok ([], []))⟩

/-- C7: in both analyzers the reference line of the title-length
histogram is the arithmetic mean of the title lengths (its value times
the number of titles is the sum of the lengths), and the legend label
renders exactly that value. -/
theorem longitud_media_line (t0 : String) (ts limpios : List String)
    (subs fechas : Option (List Cell)) :
    (grafico_longitud_titulos ⟨t0 :: ts, limpios, subs, fechas⟩).refLine
        * (((t0 :: ts).length : ℚ))
      = ((t0 :: ts).map (fun t => (t.length : ℚ))).sum ∧
    (grafico_longitud_titulos ⟨t0 :: ts, limpios, subs, fechas⟩).refLabel
      = "Media: "
        ++ fmt1 ((grafico_longitud_titulos ⟨t0 :: ts, limpios, subs, fechas⟩).refLine)
        ++ " chars" ∧
    (analizar_longitud_titulos ⟨t0 :: ts, limpios, subs, fechas⟩).refLine
        * (((t0 :: ts).length : ℚ))
      = ((t0 :: ts).map (fun t => (t.length : ℚ))).sum ∧
    (analizar_longitud_titulos ⟨t0 :: ts, limpios, subs, fechas⟩).refLabel
      = "Media: "
        ++ fmt1 ((analizar_longitud_titulos ⟨t0 :: ts, limpios, subs, fechas⟩).refLine)
        ++ " caracteres" := by
  have hlen : (((t0 :: ts).map (fun t => ((t.length : ℚ)))).length : ℚ)
      = ((t0 :: ts).length : ℚ) := by
    rw [List.length_map]
  have hne : ((t0 :: ts).length : ℚ) ≠ 0 := by
    rw [List.length_cons]; push_cast; positivity
  refine ⟨?_, rfl, ?_, rfl⟩
  · show (((t0 :: ts).map (fun t => ((t.length : ℚ)))).sum
        / (((t0 :: ts).map (fun t => ((t.length : ℚ)))).length : ℚ))
        * (((t0 :: ts).length : ℚ)) = _
    rw [hlen]
    exact div_mul_cancel₀ _ hne
  · show (((t0 :: ts).map (fun t => ((t.length : ℚ)))).sum
        / (((t0 :: ts).map (fun t => ((t.length : ℚ)))).length : ℚ))
        * (((t0 :: ts).length : ℚ)) = _
    rw [hlen]
    exact div_mul_cancel₀ _ hne

/-- C8: on a loaded table lacking the `fecha_extraccion` column, the
base analyzer batch completes, only the temporal chart is skipped (with
its warning) — no other visualization can produce a skip — and loading
a CSV without that column indeed yields such a table. -/
theorem analyzer_missing_fecha (titulos limpios : List String)
    (subs : Option (List Cell)) (m : String)
    (b1 b2 b3 b4 : Table → Except String String) :
    analisis_temporal b4 ⟨titulos, limpios, subs, none⟩
      = VizOutcome.skipped "No hay datos temporales para analizar" ∧
    analyzerBatch (Except.ok ⟨titulos, limpios, subs, none⟩) b1 b2 b3 b4
      = BatchResult.completed
          [runViz b1 ⟨titulos, limpios, subs, none⟩,
           runViz b2 ⟨titulos, limpios, subs, none⟩,
           runViz b3 ⟨titulos, limpios, subs, none⟩,
           VizOutcome.skipped "No hay datos temporales para analizar"] ∧
    runViz b1 ⟨titulos, limpios, subs, none⟩ ≠ VizOutcome.skipped m ∧
    cargar_datos (some "titulo,subtitulo\nA,s\n")
      = Except.ok ⟨["A"], ["a"], some [Cell.str "s"], none⟩ := by
  refine ⟨rfl, rfl, ?_, rfl⟩
  rw [runViz]
  cases b1 ⟨titulos, limpios, subs, none⟩ <;> simp

/-- C9: the base analyzer's `top_palabras` ignores its `df` argument
entirely: its output depends only on the module-level corpus string, so
any two tables give identical token counts and chart data. -/
theorem top_palabras_df_irrelevant (text : String) (df1 df2 : Table) (n : Nat) :
    top_palabras text df1 n = top_palabras text df2 n := rfl

/-- C10: `extraer_entidades` degrades gracefully: an unloaded spaCy
model (undefined `nlp`) or any pipeline failure yields `(None, None)`
without raising, and on success each component is `None` exactly when
its entity bucket is empty. -/
theorem entidades_degradation (titulos : List String) (msg : String) (ents : List Entity) :
    extraer_entidades none titulos = (none, none) ∧
    extraer_entidades (some (fun _ => Except.error msg)) titulos = (none, none) ∧
    ((extraer_entidades (some (fun _ => Except.ok ents)) titulos).1 = none
      ↔ ents.filter (fun en => en.label == EntLabel.PER) = []) ∧
    ((extraer_entidades (some (fun _ => Except.ok ents)) titulos).2 = none
      ↔ ents.filter (fun en => en.label == EntLabel.LOC) = []) := by
  refine ⟨rfl, rfl, ?_, ?_⟩
  · by_cases h : ents.filter (fun en => en.label == EntLabel.PER) = [] <;>
      simp [extraer_entidades, h, List.isEmpty_iff, List.map_eq_nil]
  · by_cases h : ents.filter (fun en => en.label == EntLabel.LOC) = [] <;>
      simp [extraer_entidades, h, List.isEmpty_iff, List.map_eq_nil]

end Scrap
